import Mathlib

/-!
Shallow embedding of `src/web_clipper.py` (a web-clipping pipeline service).

External effects (HTTP requests, the GitHub/Notion/Telegram/AI clients,
`time.sleep`) are modelled by explicit oracles `Nat → ·` giving the outcome of
the i-th call of each kind, and by an explicit event trace recording the calls
a run performs.  Pure Python string manipulation is translated to total Lean
functions over `String` / `List Char`.
-/

namespace WebClipper

/-- Python truthiness of an optional string: `None` and `""` are falsy. -/
def pyTruthy : Option String → Bool
  | none => false
  | some s => s != ""

/-- Python `str(x)` as used by an f-string on an optional string:
`None` renders as the literal text "None". -/
def pyStr : Option String → String
  | none => "None"
  | some s => s

/-- Python `s.rsplit(c, 1)[0]`: everything before the last occurrence of `c`,
or the whole string when `c` does not occur. -/
def pyRsplitHead (c : Char) (s : List Char) : List Char :=
  if c ∈ s then ((s.reverse.dropWhile (fun a => a != c)).drop 1).reverse else s

/-- Python `s.split(c, 1)[1]`: everything after the first occurrence of `c`
(the source guards this with `if c in s`). -/
def pySplitFirstTail (c : Char) (s : List Char) : List Char :=
  (s.dropWhile (fun a => a != c)).drop 1

/-- Python `s.replace('$', '/')` (single-character replacement). -/
def dollarToSlash (s : List Char) : List Char :=
  s.map (fun c => if c = '$' then '/' else c)

/-- Python `s.split(c)` for a one-character separator: every occurrence
separates, so the result has one more part than there are occurrences. -/
def pySplitChar (c : Char) : List Char → List (List Char)
  | [] => [[]]
  | a :: rest =>
    match pySplitChar c rest with
    | [] => [[]]
    | h :: t => if a = c then [] :: h :: t else (a :: h) :: t

/-- Python whitespace as it occurs in this pipeline's strings. -/
def pyIsSpace (c : Char) : Bool :=
  c == ' ' || c == '\t' || c == '\n' || c == '\r'

/-- Python `s.strip()`: drop whitespace from both ends. -/
def pyStrip (s : List Char) : List Char :=
  ((s.dropWhile pyIsSpace).reverse.dropWhile pyIsSpace).reverse

/-- Scanning loop of `pyReplace`; the fuel starts at the string's length,
which suffices because every step with a non-empty pattern consumes at least
one character. -/
def pyReplaceGo (pat rep : List Char) : Nat → List Char → List Char
  | 0, s => s
  | _ + 1, [] => []
  | fuel + 1, c :: rest =>
    if List.isPrefixOf pat (c :: rest) then
      rep ++ pyReplaceGo pat rep fuel ((c :: rest).drop pat.length)
    else c :: pyReplaceGo pat rep fuel rest

/-- Python `s.replace(pat, rep)` for a non-empty pattern: replace every
non-overlapping occurrence, scanning left to right. -/
def pyReplace (pat rep s : List Char) : List Char :=
  pyReplaceGo pat rep s.length s

/-- Result dictionary of `parse_filename`. -/
structure ParseResult where
  original_url : String
deriving Repr, DecidableEq

/-- `parse_filename` (web_clipper.py lines 77-100).  Removes the extension
after the last '.', removes the random prefix up to the first '_' when an
underscore is present, and maps '$' back to '/'.  Every operation in the
source's `try` block is total on strings, so the `except` branch that would
return an empty URL is unreachable; the translation is the `try` body. -/
def parse_filename (filename : String) : ParseResult :=
  let name_without_ext := pyRsplitHead '.' filename.data
  let name_stripped :=
    if '_' ∈ name_without_ext then pySplitFirstTail '_' name_without_ext
    else name_without_ext
  { original_url := String.mk (dollarToSlash name_stripped) }

example : parse_filename "abc123_https:$$example.com$page.html" =
    { original_url := "https://example.com/page" } := by decide

example : parse_filename "abc123_https:$$example.com$page" =
    { original_url := "https://example" } := by decide

/-- The configuration values the pipeline reads (`config.get` defaults from the
source are the field defaults). -/
structure Config where
  github_repo : String := "user/web-clips"
  github_pages_domain : String := "user.github.io"
  github_pages_max_retries : Nat := 60
  openai_max_retries : Nat := 3
  notify_on_ai_error : Bool := true
  skip_ai_on_error : Bool := true
  default_summary : String := "无法生成摘要"
  default_tags : List String := ["未分类"]
  skip_notion_on_error : Bool := true
deriving Repr

/-- Observable events of one pipeline run: external calls and sleeps, in
program order.  `notifyAwait` is an awaited `send_telegram_notification` call
(indexed by awaited-call count); `notifyTask` is a fire-and-forget
`asyncio.create_task` notification whose outcome is never observed. -/
inductive Event where
  | uploadAttempt (i : Nat)
  | pollAttempt (i : Nat)
  | mdAttempt (i : Nat)
  | bsAttempt (i : Nat)
  | aiAttempt (i : Nat)
  | notionAttempt (i : Nat)
  | notifyAwait (i : Nat)
  | notifyTask
  | sleep (secs : Nat)
deriving Repr, DecidableEq

/-- Outcome of one deploy-poll GET of the GitHub Pages URL
(web_clipper.py lines 247-256): HTTP 200, some other status, or a
`requests.RequestException`. -/
inductive PollOutcome where
  | ok200
  | notOk (code : Nat)
  | netErr
deriving Repr, DecidableEq

/-- The deploy-poll loop of `upload_to_github` (lines 245-281): poll until a
200 response or the attempt ceiling; non-200 and network errors both sleep 5
seconds and continue.  Returns whether a 200 was seen, plus the trace. -/
def pollDeploy (poll : Nat → PollOutcome) : Nat → Nat → Bool × List Event
  | 0, _ => (false, [])
  | fuel + 1, i =>
    match poll i with
    | .ok200 => (true, [.pollAttempt i])
    | .notOk _ =>
      let r := pollDeploy poll fuel (i + 1)
      (r.1, .pollAttempt i :: .sleep 5 :: r.2)
    | .netErr =>
      let r := pollDeploy poll fuel (i + 1)
      (r.1, .pollAttempt i :: .sleep 5 :: r.2)

/-- The upload retry loop of `upload_to_github` (lines 219-298).  `fuel` is
the number of attempts left (initially `max_retries = 5`), `i` the attempt
index, `delay` the current `retry_delay`.  A successful `create_file` runs the
deploy poll and returns `(filename, github_url)` whether or not the poll ever
saw a 200; a failing attempt sleeps and doubles the delay, and the last
failure raises `RuntimeError("GitHub 上传失败: ...")`. -/
def uploadGo (fn url : String) (create : Nat → Except String Unit)
    (poll : Nat → PollOutcome) (pollMax : Nat) :
    Nat → Nat → Nat → Except String (String × String) × List Event
  | 0, _, _ => (.error "unreachable: the loop raises on its last attempt", [])
  | fuel + 1, i, delay =>
    match create i with
    | .ok _ =>
      let p := pollDeploy poll pollMax 0
      (.ok (fn, url), .uploadAttempt i :: p.2)
    | .error e =>
      if fuel = 0 then (.error ("GitHub 上传失败: " ++ e), [.uploadAttempt i])
      else
        let r := uploadGo fn url create poll pollMax fuel (i + 1) (2 * delay)
        (r.1, .uploadAttempt i :: .sleep delay :: r.2)

/-- `upload_to_github` (lines 210-298): `max_retries = 5`, initial
`retry_delay = 3`; the poll ceiling is `github_pages_max_retries`
(default 60). -/
def upload_to_github (fn url : String) (create : Nat → Except String Unit)
    (poll : Nat → PollOutcome) (pollMax : Nat) :
    Except String (String × String) × List Event :=
  uploadGo fn url create poll pollMax 5 0 3

/-- Outcome of one `requests.get` of the markdown-renderer URL in `url2md`
(line 306): a response with a status code and body text, or an exception. -/
inductive FetchOutcome where
  | resp (status : Nat) (text : String)
  | exn
deriving Repr, DecidableEq

/-- Whether a fetch outcome is an HTTP 200 response. -/
def FetchOutcome.is200 : FetchOutcome → Bool
  | .resp s _ => s == 200
  | .exn => false

/-- The attempt loop of `url2md` (lines 303-311): a 200 response returns its
text; any other status just moves to the next attempt; an exception is caught
by the inner handler, which sleeps 10 seconds and moves on.  When the loop
exhausts its attempts the function falls off the end of the `try` block and
returns Python `None` (modelled as `none`). -/
def url2mdGo (fetch : Nat → FetchOutcome) : Nat → Nat → Option String × List Event
  | 0, _ => (none, [])
  | fuel + 1, i =>
    match fetch i with
    | .resp s t =>
      if s = 200 then (some t, [.mdAttempt i])
      else
        let r := url2mdGo fetch fuel (i + 1)
        (r.1, .mdAttempt i :: r.2)
    | .exn =>
      let r := url2mdGo fetch fuel (i + 1)
      (r.1, .mdAttempt i :: .sleep 10 :: r.2)

/-- `url2md` (lines 300-314), `max_retries = 30`.  The outer
`except Exception` that would call `get_page_content_by_bs` is unreachable:
the only raising call in the `try` body is the per-attempt `requests.get`,
and the inner `except` already catches it, so the loop body never throws.
Exhaustion therefore yields `None` and the fallback is never invoked. -/
def url2md (fetch : Nat → FetchOutcome) : Option String × List Event :=
  url2mdGo fetch 30 0

/-- `get_page_content_by_md` (lines 494-500): the title is the first line
beginning with `Title:`, with that token removed everywhere and the result
stripped; with no such line the sentinel `未知标题` is returned.
(Python `splitlines` is modelled as splitting on a newline, the only line
separator occurring in this pipeline's strings.) -/
def get_page_content_by_md (md_content : String) : String :=
  match (pySplitChar '\n' md_content.data).find?
      (fun line => List.isPrefixOf "Title:".data line) with
  | some line => String.mk (pyStrip (pyReplace "Title:".data [] line))
  | none => "未知标题"

/-- The parts of a BeautifulSoup-parsed HTML document that
`get_page_content_by_bs` inspects.  `titleTag = none` means no `<title>`
element; `titleTag = some x` means the element is present and `x` is its
`.string` (itself `none` when the element has no single string child — e.g.
an empty `<title>`).  `h1`..`h6` hold `get_text(strip=True)` of the first such
element when present.  `body` is the `html2text` conversion of the document
(an external library call, taken as given). -/
structure Soup where
  titleTag : Option (Option String)
  h1 : Option String
  h2 : Option String
  h3 : Option String
  h4 : Option String
  h5 : Option String
  h6 : Option String
  body : String
deriving Repr, DecidableEq

/-- The first present element among `<h2>`..`<h6>`, as scanned by the `for`
loop on line 517 (its text is taken even when empty — the loop breaks on
element presence, not on text truthiness). -/
def firstHeading (s : Soup) : Option String :=
  s.h2 <|> s.h3 <|> s.h4 <|> s.h5 <|> s.h6

/-- Lines 511-513: `title = None; if soup.title: title = soup.title.string` —
the value of `title` after probing the `<title>` element. -/
def titleString (s : Soup) : Option String :=
  match s.titleTag with
  | some x => x
  | none => none

/-- Title resolution of `get_page_content_by_bs` (lines 511-520), transcribing
the mutation sequence: probe the `<title>` element; if the current value is
falsy and an `<h1>` exists take its stripped text; if still falsy take the
first present `<h2>`..`<h6>`. -/
def resolveTitle (s : Soup) : Option String :=
  let t0 : Option String := titleString s
  let t1 : Option String := if !pyTruthy t0 && s.h1.isSome then s.h1 else t0
  if !pyTruthy t1 then
    match firstHeading s with
    | some g => some g
    | none => t1
  else t1

/-- The success-path return string of `get_page_content_by_bs` (line 528):
`f"Title: {title} \n\n {content}"`, where a still-unassigned title renders as
the text "None". -/
def bsPage (s : Soup) : String :=
  "Title: " ++ pyStr (resolveTitle s) ++ " \n\n " ++ s.body

/-- Outcome of one `requests.get(url)` in `get_page_content_by_bs`
(line 506): a 200 response whose body parses to the given `Soup`, another
status, or an exception. -/
inductive BsFetch where
  | ok200 (soup : Soup)
  | notOk (code : Nat)
  | exn
deriving Repr, DecidableEq

/-- Return value of `get_page_content_by_bs`: the success path returns one
formatted string (line 528); the exhaustion path returns a 2-tuple
`(os.path.basename(url), "")` (line 535) — a different shape. -/
inductive BsResult where
  | page (s : String)
  | pair (title body : String)
deriving Repr, DecidableEq

/-- `os.path.basename` on a URL string: the part after the last '/'. -/
def basename (url : String) : String :=
  String.mk ((pySplitChar '/' url.data).getLastD [])

/-- The attempt loop of `get_page_content_by_bs` (lines 504-533): a 200
response returns the formatted page string; a non-200 sleeps 5 seconds; an
exception is caught and sleeps 5 seconds; exhaustion returns the tuple
`(basename url, "")`. -/
def bsGo (url : String) (fetch : Nat → BsFetch) : Nat → Nat → BsResult × List Event
  | 0, _ => (.pair (basename url) "", [])
  | fuel + 1, i =>
    match fetch i with
    | .ok200 soup => (.page (bsPage soup), [.bsAttempt i])
    | .notOk _ =>
      let r := bsGo url fetch fuel (i + 1)
      (r.1, .bsAttempt i :: .sleep 5 :: r.2)
    | .exn =>
      let r := bsGo url fetch fuel (i + 1)
      (r.1, .bsAttempt i :: .sleep 5 :: r.2)

/-- `get_page_content_by_bs` (lines 502-535), `max_retries = 60`. -/
def get_page_content_by_bs (url : String) (fetch : Nat → BsFetch) :
    BsResult × List Event :=
  bsGo url fetch 60 0

/-- The response-parsing block of `generate_summary_tags` (lines 400-408):
scan all lines; a line starting with `摘要：` sets the summary (token removed,
stripped); a line starting with `标签：` sets the tags (token removed, split
on the full-width comma, each entry stripped).  Later occurrences
overwrite earlier ones, as in the Python loop. -/
def parseAiResult (result : String) : String × List String :=
  (pySplitChar '\n' result.data).foldl
    (fun acc line =>
      if List.isPrefixOf "摘要：".data line then
        (String.mk (pyStrip (pyReplace "摘要：".data [] line)), acc.2)
      else if List.isPrefixOf "标签：".data line then
        (acc.1, (pySplitChar '，' (pyReplace "标签：".data [] line)).map
          (fun t => String.mk (pyStrip t)))
      else acc)
    ("", [])

/-- The retry loop of `generate_summary_tags` (lines 334-419).  Each attempt
either raises (provider error, modelled by the oracle) or yields a response
string; a parse with a falsy summary or an empty tag list raises
`ValueError("AI 响应格式不正确")`.  A non-final failure sleeps `2^attempt`
seconds and retries; the final failure re-raises to the outer handler. -/
def genGo (ai : Nat → Except String String) :
    Nat → Nat → Except String (String × List String) × List Event
  | 0, _ => (.error "unreachable with a positive retry budget", [])
  | fuel + 1, i =>
    let step : Except String (String × List String) :=
      match ai i with
      | .error e => .error e
      | .ok r =>
        if (parseAiResult r).1 = "" ∨ (parseAiResult r).2 = [] then
          .error "AI 响应格式不正确"
        else .ok (parseAiResult r)
    match step with
    | .ok v => (.ok v, [.aiAttempt i])
    | .error e =>
      if fuel = 0 then (.error e, [.aiAttempt i])
      else
        let r := genGo ai fuel (i + 1)
        (r.1, .aiAttempt i :: .sleep (2 ^ i) :: r.2)

/-- `generate_summary_tags` (lines 316-436).  On loop exhaustion the outer
handler fires a fire-and-forget notification task (when `notify_on_ai_error`)
and then degrades to the configured defaults (when `skip_ai_on_error`, the
default) or re-raises.  A zero retry budget (the loop body never running,
which would make the Python function fall through and return `None`) is
outside this model; theorems assume a positive budget. -/
def generate_summary_tags (cfg : Config) (ai : Nat → Except String String) :
    Except String (String × List String) × List Event :=
  let r := genGo ai cfg.openai_max_retries 0
  match r.1 with
  | .ok v => (.ok v, r.2)
  | .error e =>
    let es := r.2 ++ (if cfg.notify_on_ai_error then [Event.notifyTask] else [])
    if cfg.skip_ai_on_error then (.ok (cfg.default_summary, cfg.default_tags), es)
    else (.error e, es)

/-- The `data` dictionary passed to `save_to_notion` (lines 169-176).
`original_url` is `Option String` so that the Python-falsy cases `None` and
`""` are both expressible at the boundary. -/
structure NotionData where
  title : String
  original_url : Option String
  snapshot_url : String
  summary : String
  tags : List String
  created_at : Nat
deriving Repr, DecidableEq

/-- The `properties` payload built by `save_to_notion` (lines 445-459).
`originalURL` is the stored URL field (`none` = stored null);
`tagsMultiSelect` is the list of multi-select tag names.  The timestamp
formatting (`time.strftime` of `time.gmtime`) is an external library call and
the epoch value is carried through unformatted. -/
structure NotionProps where
  title : String
  originalURL : Option String
  snapshotURL : String
  summary : String
  tagsMultiSelect : List String
  created : Nat
deriving Repr, DecidableEq

/-- Payload construction of `save_to_notion` (lines 445-459): an empty tag
list is replaced by `["未分类"]`; the URL field is the original URL when
truthy, else null; the multi-select keeps only tags with non-blank strip. -/
def buildNotionProperties (d : NotionData) : NotionProps :=
  let tags := if d.tags = [] then ["未分类"] else d.tags
  { title := d.title
    originalURL := if pyTruthy d.original_url then d.original_url else none
    snapshotURL := d.snapshot_url
    summary := d.summary
    tagsMultiSelect := tags.filter (fun t => !(pyStrip t.data).isEmpty)
    created := d.created_at }

/-- The retry loop of `save_to_notion` (lines 443-479): `max_retries = 3`;
the oracle gives each `pages.create` outcome (`ok` carries the created page's
URL); a non-final failure sleeps `2 * 2^attempt` seconds. -/
def notionGo (createPage : Nat → Except String String) :
    Nat → Nat → Except String String × List Event
  | 0, _ => (.error "unreachable: max_retries = 3", [])
  | fuel + 1, i =>
    match createPage i with
    | .ok u => (.ok u, [.notionAttempt i])
    | .error e =>
      if fuel = 0 then (.error e, [.notionAttempt i])
      else
        let r := notionGo createPage fuel (i + 1)
        (r.1, .notionAttempt i :: .sleep (2 * 2 ^ i) :: r.2)

/-- `save_to_notion` (lines 438-492).  On exhaustion a fire-and-forget
failure notification task is launched, then either the placeholder URL is
returned (when `skip_notion_on_error`, the default) or the error re-raises.
The `properties` payload is rebuilt identically on every attempt, so it is
computed once here; the oracle models `pages.create` applied to it. -/
def save_to_notion (cfg : Config) (createPage : NotionProps → Nat → Except String String)
    (d : NotionData) : Except String String × List Event :=
  let props := buildNotionProperties d
  let r := notionGo (createPage props) 3 0
  match r.1 with
  | .ok u => (.ok u, r.2)
  | .error e =>
    let es := r.2 ++ [Event.notifyTask]
    if cfg.skip_notion_on_error then (.ok "https://www.notion.so/error-saving", es)
    else (.error e, es)

/-- The external-effect oracles one pipeline run draws from: per-call
outcomes of `repo.create_file`, the deploy-poll GET, the markdown-renderer
GET, the AI completion call, `notion_client.pages.create`, and the awaited
`send_telegram_notification` (indexed by awaited-call count). -/
structure PEnv where
  create : Nat → Except String Unit
  poll : Nat → PollOutcome
  fetchMd : Nat → FetchOutcome
  ai : Nat → Except String String
  createPage : NotionProps → Nat → Except String String
  notify : Nat → Except String Unit

/-- The GitHub Pages URL built on line 232:
`f"https://{domain}/{repo.split('/')[1]}/clips/{filename}"` (the configured
repo is assumed of the `owner/name` form, as `split('/')[1]` requires). -/
def githubPagesUrl (cfg : Config) (fn : String) : String :=
  "https://" ++ cfg.github_pages_domain ++ "/"
    ++ String.mk ((pySplitChar '/' cfg.github_repo.data).getD 1 []) ++ "/clips/" ++ fn

/-- The success dictionary returned by `process_file` (lines 197-201); its
`status` field is always the literal "success" and is omitted. -/
structure PipelineSuccess where
  github_url : String
  notion_url : String
deriving Repr, DecidableEq

/-- The `except` block of `process_file` (lines 203-208): an awaited failure
notification is sent, then the caught exception is re-raised.  When that
notification itself raises, the new exception propagates instead (the bare
`raise` is never reached). -/
def handleExcept (env : PEnv) (e : String) (es : List Event) (idx : Nat) :
    Except String PipelineSuccess × List Event :=
  match env.notify idx with
  | .ok _ => (.error e, es ++ [Event.notifyAwait idx])
  | .error e2 => (.error e2, es ++ [Event.notifyAwait idx])

/-- `process_file` (lines 142-208).  `fileBase` is `os.path.basename` of the
uploaded file's path; `declaredUrl` the caller-supplied original URL;
`createdAt` the `time.time()` epoch value.  The GitHub Pages URL is built as
on line 232 (the configured repo is assumed of the `owner/name` form, as the
source's `split('/')[1]` requires).  When `url2md` falls off its loop and
returns `None`, the subsequent `md_content.splitlines()` inside
`get_page_content_by_md` raises an `AttributeError`, which the `except`
block handles like any other step failure. -/
def process_file (cfg : Config) (env : PEnv) (fileBase declaredUrl : String)
    (createdAt : Nat) : Except String PipelineSuccess × List Event :=
  let ghUrl := githubPagesUrl cfg fileBase
  match upload_to_github fileBase ghUrl env.create env.poll cfg.github_pages_max_retries with
  | (.error e, es1) => handleExcept env e es1 0
  | (.ok (filename, github_url), es1) =>
    let md := url2md env.fetchMd
    let es2 := es1 ++ md.2
    match md.1 with
    | none =>
      handleExcept env
        "AttributeError: 'NoneType' object has no attribute 'splitlines'" es2 0
    | some md_content =>
      let title := get_page_content_by_md md_content
      let original_url :=
        if declaredUrl = "" then (parse_filename filename).original_url
        else declaredUrl
      match generate_summary_tags cfg env.ai with
      | (.error e, es3) => handleExcept env e (es2 ++ es3) 0
      | (.ok (summary, tags), es3) =>
        let data : NotionData :=
          { title := title
            original_url := some original_url
            snapshot_url := github_url
            summary := summary
            tags := tags
            created_at := createdAt }
        match save_to_notion cfg env.createPage data with
        | (.error e, es4) => handleExcept env e (es2 ++ es3 ++ es4) 0
        | (.ok notion_url, es4) =>
          let es5 := es2 ++ es3 ++ es4
          match env.notify 0 with
          | .ok _ =>
            (.ok { github_url := github_url, notion_url := notion_url },
              es5 ++ [Event.notifyAwait 0])
          | .error e => handleExcept env e (es5 ++ [Event.notifyAwait 0]) 1

/-! ## Helper lemmas -/

theorem pyTruthy_some (s : String) : pyTruthy (some s) = (s != "") := rfl

theorem pyTruthy_none : pyTruthy none = false := rfl

theorem dropWhile_append_all {p : Char → Bool} {l₁ l₂ : List Char}
    (h : ∀ a ∈ l₁, p a = true) :
    (l₁ ++ l₂).dropWhile p = l₂.dropWhile p := by
  induction l₁ with
  | nil => simp
  | cons a l ih =>
    simp only [List.cons_append, List.dropWhile_cons, h a (List.mem_cons_self a l), if_pos]
    exact ih (fun b hb => h b (List.mem_cons_of_mem a hb))

theorem dollarToSlash_no_dollar {l : List Char} (h : '$' ∉ l) :
    dollarToSlash l = l := by
  induction l with
  | nil => rfl
  | cons a t ih =>
    rw [List.mem_cons, not_or] at h
    simp [dollarToSlash] at ih ⊢
    exact ⟨fun hc => absurd hc.symm h.1, ih h.2⟩

theorem pyRsplitHead_append_ext (x : List Char) :
    pyRsplitHead '.' (x ++ ".html".data) = x := by
  have hmem : '.' ∈ x ++ ".html".data := by
    refine List.mem_append_right x ?_
    decide
  simp only [pyRsplitHead, if_pos hmem, List.reverse_append]
  have : (".html".data).reverse = ['l', 'm', 't', 'h', '.'] := by decide
  rw [this]
  simp [List.dropWhile_cons]

theorem pySplitFirstTail_append {pre u : List Char} (h : '_' ∉ pre) :
    pySplitFirstTail '_' (pre ++ '_' :: u) = u := by
  have hall : ∀ a ∈ pre, (a != '_') = true := by
    intro a ha
    simp only [bne_iff_ne, ne_eq]
    exact fun he => h (he ▸ ha)
  simp [pySplitFirstTail, dropWhile_append_all hall, List.dropWhile_cons]

/-! ## C6 -/

/-- C6, counterexample: on the stored name exactly as given in the claim
(`abc123_https:$$example.com$page`, with no extension), `parse_filename`
first removes everything after the last '.', so the result is
"https://example", not the claimed "https://example.com/page". -/
theorem c6_extensionless_name_cex :
    parse_filename "abc123_https:$$example.com$page" =
      { original_url := "https://example" } ∧
    ("https://example" : String) ≠ "https://example.com/page" := by
  constructor
  · decide
  · decide

/-- C6 (amended): decoding first strips the extension after the last '.',
then the random prefix up to the first '_', then maps every '$' back to '/'.
For any prefix without an underscore and any encoded URL, the stored name
`{prefix}_{url}.html` decodes to the '$'-to-'/' image of the encoded URL; in
particular `abc123_https:$$example.com$page.html` decodes to
`https://example.com/page`.  The claim's extensionless example instead loses
`.com$page` to the extension strip. -/
theorem c6_filename_decoding (pre u : String) (hpre : '_' ∉ pre.data) :
    (parse_filename (pre ++ "_" ++ u ++ ".html")).original_url =
      String.mk (dollarToSlash u.data) ∧
    parse_filename "abc123_https:$$example.com$page.html" =
      { original_url := "https://example.com/page" } := by
  constructor
  · have hdata : (pre ++ "_" ++ u ++ ".html").data =
        (pre.data ++ '_' :: u.data) ++ ".html".data := by
      simp [String.data_append]
    have hsplit : pyRsplitHead '.' (pre ++ "_" ++ u ++ ".html").data =
        pre.data ++ '_' :: u.data := by
      rw [hdata, pyRsplitHead_append_ext]
    have hmem : '_' ∈ pre.data ++ '_' :: u.data := by
      exact List.mem_append_right _ (List.mem_cons_self _ _)
    simp only [parse_filename, hsplit, if_pos hmem, pySplitFirstTail_append hpre]
  · decide

/-- Witness for `c6_filename_decoding` at the claim's own example name. -/
theorem c6_filename_decoding_witness :
    ('_' ∉ ("abc123" : String).data) ∧
    (parse_filename ("abc123" ++ "_" ++ "https:$$example.com$page" ++ ".html")).original_url =
      String.mk (dollarToSlash ("https:$$example.com$page" : String).data) :=
  ⟨by decide, (c6_filename_decoding "abc123" "https:$$example.com$page" (by decide)).1⟩

/-! ## C10 -/

/-- C10 (confirmed): `parse_filename` is total — it is built from total
string operations, so the defensive `except` branch of the source can never
fire and every input yields a dictionary with an `original_url` key.  On a
filename with no extension, no underscore and no '$' every stage is the
identity, so the pipeline would proceed with that very string rather than
aborting. -/
theorem c10_parse_filename_total (s : String) (h1 : '.' ∉ s.data)
    (h2 : '_' ∉ s.data) (h3 : '$' ∉ s.data) :
    parse_filename s = { original_url := s } := by
  simp only [parse_filename, pyRsplitHead, if_neg h1, if_neg h2,
    dollarToSlash_no_dollar h3]

/-- Witness for `c10_parse_filename_total` on a bare extensionless name. -/
theorem c10_parse_filename_total_witness :
    parse_filename "snapshot" = { original_url := "snapshot" } :=
  c10_parse_filename_total "snapshot" (by decide) (by decide) (by decide)

/-! ## C8 -/

/-- C8 (confirmed): the note-recorder payload stores the original-URL field
as null whenever the incoming value is absent (`None`) or the empty string,
and stores any non-empty URL unchanged; an empty string is never stored. -/
theorem c8_original_url_null_not_empty (d : NotionData) :
    ((d.original_url = none ∨ d.original_url = some "") →
      (buildNotionProperties d).originalURL = none) ∧
    (∀ s, s ≠ "" → d.original_url = some s →
      (buildNotionProperties d).originalURL = some s) ∧
    (buildNotionProperties d).originalURL ≠ some "" := by
  refine ⟨?_, ?_, ?_⟩
  · rintro (h | h) <;> simp [buildNotionProperties, pyTruthy, h]
  · intro s hs h
    simp [buildNotionProperties, pyTruthy, h, hs]
  · cases h : d.original_url with
    | none => simp [buildNotionProperties, pyTruthy, h]
    | some s =>
      by_cases hs : s = ""
      · simp [buildNotionProperties, pyTruthy, h, hs]
      · simp [buildNotionProperties, pyTruthy, h, hs]

/-- Witness for `c8_original_url_null_not_empty`: an empty incoming URL is
stored as null, and a real URL is stored unchanged. -/
theorem c8_original_url_null_not_empty_witness :
    (buildNotionProperties
      { title := "t", original_url := some "", snapshot_url := "s",
        summary := "m", tags := ["a"], created_at := 0 }).originalURL = none ∧
    (buildNotionProperties
      { title := "t", original_url := some "https://e.com", snapshot_url := "s",
        summary := "m", tags := ["a"], created_at := 0 }).originalURL =
      some "https://e.com" :=
  ⟨(c8_original_url_null_not_empty _).1 (Or.inr rfl),
   (c8_original_url_null_not_empty _).2.1 "https://e.com" (by decide) rfl⟩

/-! ## C7 -/

/-- C7, counterexample: for an HTML document with no `<title>`, no `<h1>` and
no `<h2>`..`<h6>`, the fallback path's title is left as Python `None`, which
the returned `Title:` line renders as the literal string "None"; reading that
line back yields the title "None", not the `未知标题` sentinel the claim
names. -/
theorem c7_missing_heading_title_cex :
    resolveTitle ⟨none, none, none, none, none, none, none, ""⟩ = none ∧
    bsPage ⟨none, none, none, none, none, none, none, ""⟩ = "Title: None \n\n " ∧
    get_page_content_by_md
      (bsPage ⟨none, none, none, none, none, none, none, ""⟩) = "None" ∧
    ("None" : String) ≠ "未知标题" := by
  refine ⟨by decide, by decide, by rfl, by decide⟩

/-- C7 (amended): the fallback title resolution is deterministic in this
order — the `<title>` element's string when it is non-empty; else the
stripped `<h1>` text when an `<h1>` exists and its text is non-empty; else
the first present element among `<h2>`..`<h6>` (whose text is taken even when
empty); and when nothing at all is found the title stays Python `None` and is
rendered as the string "None", not as the `未知标题` sentinel (that sentinel
belongs to the primary markdown path only). -/
theorem c7_title_resolution_order (s : Soup) :
    (∀ x, s.titleTag = some (some x) → x ≠ "" → resolveTitle s = some x) ∧
    (pyTruthy (titleString s) = false →
      ∀ t, s.h1 = some t → t ≠ "" → resolveTitle s = some t) ∧
    (pyTruthy (titleString s) = false →
      (s.h1 = none ∨ s.h1 = some "") →
      ∀ g, firstHeading s = some g → resolveTitle s = some g) ∧
    (s.titleTag = none → s.h1 = none → firstHeading s = none →
      resolveTitle s = none ∧ pyStr (resolveTitle s) = "None") := by
  refine ⟨?_, ?_, ?_, ?_⟩
  · intro x hx hne
    have h0 : titleString s = some x := by simp [titleString, hx]
    simp [resolveTitle, h0, pyTruthy_some, bne_iff_ne, hne]
  · intro hfalse t ht hne
    simp [resolveTitle, hfalse, ht, pyTruthy_some, bne_iff_ne, hne]
  · intro hfalse hh1 g hg
    rcases hh1 with h | h <;>
      simp [resolveTitle, hfalse, h, pyTruthy_some, hg]
  · intro h0 h1 hg
    have ht : titleString s = none := by simp [titleString, h0]
    constructor
    · simp [resolveTitle, ht, h1, pyTruthy_none, hg]
    · simp [resolveTitle, ht, h1, pyTruthy_none, hg, pyStr]

/-- Witness for `c7_title_resolution_order`: each resolution stage exercised
on a concrete document. -/
theorem c7_title_resolution_order_witness :
    resolveTitle ⟨some (some "T"), some "H1", some "H2", none, none, none, none, "b"⟩ =
      some "T" ∧
    resolveTitle ⟨some none, some "H1", some "H2", none, none, none, none, "b"⟩ =
      some "H1" ∧
    resolveTitle ⟨none, some "", some "H2", none, none, none, none, "b"⟩ = some "H2" ∧
    resolveTitle ⟨none, none, none, none, none, none, none, ""⟩ = none :=
  ⟨(c7_title_resolution_order
      ⟨some (some "T"), some "H1", some "H2", none, none, none, none, "b"⟩).1
      "T" rfl (by decide),
   (c7_title_resolution_order
      ⟨some none, some "H1", some "H2", none, none, none, none, "b"⟩).2.1
      (by decide) "H1" rfl (by decide),
   (c7_title_resolution_order
      ⟨none, some "", some "H2", none, none, none, none, "b"⟩).2.2.1
      (by decide) (Or.inr rfl) "H2" (by decide),
   ((c7_title_resolution_order
      ⟨none, none, none, none, none, none, none, ""⟩).2.2.2 rfl rfl (by decide)).1⟩

/-! ## Loop lemmas -/

/-- Number of deploy-poll attempts recorded in a trace. -/
def countPolls (es : List Event) : Nat :=
  es.countP fun e => match e with | .pollAttempt _ => true | _ => false

/-- Number of recorded sleeps of exactly `n` seconds. -/
def countSleeps (n : Nat) (es : List Event) : Nat :=
  es.countP fun e => match e with | .sleep m => m == n | _ => false

theorem pollDeploy_exhaust (poll : Nat → PollOutcome) :
    ∀ n i, (∀ j, j < n → poll (i + j) ≠ .ok200) →
      (pollDeploy poll n i).1 = false ∧
      countPolls (pollDeploy poll n i).2 = n ∧
      countSleeps 5 (pollDeploy poll n i).2 = n := by
  intro n
  induction n with
  | zero => intro i _; exact ⟨rfl, rfl, rfl⟩
  | succ m ih =>
    intro i h
    have h0 : poll i ≠ .ok200 := by
      have := h 0 (Nat.succ_pos m)
      simpa using this
    have hrest : ∀ j, j < m → poll ((i + 1) + j) ≠ .ok200 := by
      intro j hj
      have := h (j + 1) (Nat.succ_lt_succ hj)
      have he : i + (j + 1) = (i + 1) + j := by omega
      simpa [he] using this
    obtain ⟨h1, h2, h3⟩ := ih (i + 1) hrest
    cases hp : poll i with
    | ok200 => exact absurd hp h0
    | notOk c =>
      refine ⟨?_, ?_, ?_⟩ <;>
        simp [pollDeploy, hp, countPolls, countSleeps, List.countP_cons, h1, h2, h3] at * <;>
        omega
    | netErr =>
      refine ⟨?_, ?_, ?_⟩ <;>
        simp [pollDeploy, hp, countPolls, countSleeps, List.countP_cons, h1, h2, h3] at * <;>
        omega

/-! ## C4 -/

/-- C4 (confirmed): when the publish itself succeeds on its first attempt but
no deploy-poll attempt ever observes HTTP 200 (non-200 responses and network
errors alike), `upload_to_github` still returns the artifact —
`(filename, public URL)` — without raising, after exactly the configured
ceiling of poll attempts, each followed by a 5-second sleep. -/
theorem c4_poll_exhaustion_still_returns_artifact (fn url : String)
    (create : Nat → Except String Unit) (poll : Nat → PollOutcome) (n : Nat)
    (hc : create 0 = .ok ())
    (hp : ∀ j, j < n → poll j ≠ .ok200) :
    (upload_to_github fn url create poll n).1 = .ok (fn, url) ∧
    countPolls (upload_to_github fn url create poll n).2 = n ∧
    countSleeps 5 (upload_to_github fn url create poll n).2 = n := by
  obtain ⟨_, h2, h3⟩ := pollDeploy_exhaust poll n 0 (by intro j hj; simpa using hp j hj)
  refine ⟨?_, ?_, ?_⟩ <;>
    simp [upload_to_github, uploadGo, hc, countPolls, countSleeps,
      List.countP_cons] at h2 h3 ⊢ <;>
    omega

/-- Witness for `c4_poll_exhaustion_still_returns_artifact` at the default
ceiling of 60 attempts, every poll returning HTTP 404. -/
theorem c4_poll_exhaustion_still_returns_artifact_witness :
    (upload_to_github "f.html" "https://u.github.io/r/clips/f.html"
        (fun _ => .ok ()) (fun _ => .notOk 404) 60).1 =
      .ok ("f.html", "https://u.github.io/r/clips/f.html") ∧
    countPolls (upload_to_github "f.html" "https://u.github.io/r/clips/f.html"
        (fun _ => .ok ()) (fun _ => .notOk 404) 60).2 = 60 ∧
    countSleeps 5 (upload_to_github "f.html" "https://u.github.io/r/clips/f.html"
        (fun _ => .ok ()) (fun _ => .notOk 404) 60).2 = 60 :=
  c4_poll_exhaustion_still_returns_artifact "f.html"
    "https://u.github.io/r/clips/f.html" (fun _ => .ok ()) (fun _ => .notOk 404) 60
    rfl (by intro j hj; simp)

/-! ## C9 -/

theorem bsGo_exhaust (url : String) (fetch : Nat → BsFetch) :
    ∀ fuel i, (∀ j, j < fuel → ∀ soup, fetch (i + j) ≠ .ok200 soup) →
      (bsGo url fetch fuel i).1 = .pair (basename url) "" := by
  intro fuel
  induction fuel with
  | zero => intro i _; rfl
  | succ m ih =>
    intro i h
    have h0 : ∀ soup, fetch i ≠ .ok200 soup := by
      have := h 0 (Nat.succ_pos m)
      simpa using this
    have hrest : ∀ j, j < m → ∀ soup, fetch ((i + 1) + j) ≠ .ok200 soup := by
      intro j hj
      have := h (j + 1) (Nat.succ_lt_succ hj)
      have he : i + (j + 1) = (i + 1) + j := by omega
      simpa [he] using this
    cases hf : fetch i with
    | ok200 soup => exact absurd hf (h0 soup)
    | notOk c => simpa [bsGo, hf] using ih (i + 1) hrest
    | exn => simpa [bsGo, hf] using ih (i + 1) hrest

/-- C9, counterexample: when every fallback fetch fails, the function does
return an empty body with the bare resource name as title, but as a 2-tuple
`(basename, "")` — not in the same shape as the success path, which returns a
single formatted `Title: ...` string. -/
theorem c9_exhaustion_shape_cex :
    (get_page_content_by_bs "https://host/page.html" (fun _ => .notOk 404)).1 =
      .pair "page.html" "" ∧
    (∀ str, (get_page_content_by_bs "https://host/page.html"
        (fun _ => .notOk 404)).1 ≠ .page str) := by
  constructor
  · rfl
  · intro str h
    have : BsResult.pair "page.html" "" = BsResult.page str := by
      rw [← h]; rfl
    exact BsResult.noConfusion this

/-- C9 (amended): if all 60 attempts of the fallback extraction fail (non-200
or raising alike), `get_page_content_by_bs` returns, without raising, the
2-tuple `(os.path.basename(url), "")` — empty body, bare resource name as
title — which is a different shape from the success path's single combined
string. -/
theorem c9_exhaustion_returns_tuple (url : String) (fetch : Nat → BsFetch)
    (h : ∀ j, j < 60 → ∀ soup, fetch j ≠ .ok200 soup) :
    (get_page_content_by_bs url fetch).1 = .pair (basename url) "" ∧
    (∀ str, (get_page_content_by_bs url fetch).1 ≠ .page str) := by
  have hb := bsGo_exhaust url fetch 60 0 (by intro j hj; simpa using h j hj)
  refine ⟨hb, ?_⟩
  intro str hcontra
  exact BsResult.noConfusion (hb.symm.trans hcontra)

/-- Witness for `c9_exhaustion_returns_tuple`: sixty raised network errors. -/
theorem c9_exhaustion_returns_tuple_witness :
    (get_page_content_by_bs "https://u.github.io/r/clips/a.html"
        (fun _ => .exn)).1 = .pair "a.html" "" :=
  (c9_exhaustion_returns_tuple "https://u.github.io/r/clips/a.html"
    (fun _ => .exn) (by intro j hj soup; simp)).1

/-! ## C3 -/

theorem url2mdGo_exhaust (fetch : Nat → FetchOutcome) :
    ∀ fuel i, (∀ j, j < fuel → (fetch (i + j)).is200 = false) →
      (url2mdGo fetch fuel i).1 = none := by
  intro fuel
  induction fuel with
  | zero => intro i _; rfl
  | succ m ih =>
    intro i h
    have h0 : (fetch i).is200 = false := by
      have := h 0 (Nat.succ_pos m)
      simpa using this
    have hrest : ∀ j, j < m → (fetch ((i + 1) + j)).is200 = false := by
      intro j hj
      have := h (j + 1) (Nat.succ_lt_succ hj)
      have he : i + (j + 1) = (i + 1) + j := by omega
      simpa [he] using this
    cases hf : fetch i with
    | resp s t =>
      have hs : s ≠ 200 := by
        intro he
        rw [hf, he] at h0
        simp [FetchOutcome.is200] at h0
      simpa [url2mdGo, hf, hs] using ih (i + 1) hrest
    | exn => simpa [url2mdGo, hf] using ih (i + 1) hrest

theorem url2mdGo_never_bs (fetch : Nat → FetchOutcome) :
    ∀ fuel i k, Event.bsAttempt k ∉ (url2mdGo fetch fuel i).2 := by
  intro fuel
  induction fuel with
  | zero => intro i k; simp [url2mdGo]
  | succ m ih =>
    intro i k
    cases hf : fetch i with
    | resp s t =>
      by_cases hs : s = 200
      · simp [url2mdGo, hf, hs]
      · simpa [url2mdGo, hf, hs] using ih (i + 1) k
    | exn => simpa [url2mdGo, hf] using ih (i + 1) k

/-- C3, counterexample: with every renderer attempt answering HTTP 404, the
primary path's 30 attempts are exhausted, yet `url2md` returns `None` — not
the fallback's content — and no fallback fetch is ever performed.  (The
`except` that would invoke `get_page_content_by_bs` only guards the loop,
whose body catches its own exceptions.) -/
theorem c3_url2md_exhaustion_returns_none_cex :
    (url2md (fun _ => .resp 404 "")).1 = none ∧
    (∀ k, Event.bsAttempt k ∉ (url2md (fun _ => .resp 404 "")).2) :=
  ⟨rfl, fun k => url2mdGo_never_bs (fun _ => .resp 404 "") 30 0 k⟩

/-- C3 (amended): the fallback HTML path is never reached from `url2md`: when
all 30 primary attempts fail to yield HTTP 200 (whether by status or by a
raised request error, both absorbed inside the loop), the function falls off
the loop and returns `None` rather than the fallback's content, and
`get_page_content_by_bs` is not invoked on any run. -/
theorem c3_fallback_never_taken (fetch : Nat → FetchOutcome)
    (h : ∀ j, j < 30 → (fetch j).is200 = false) :
    (url2md fetch).1 = none ∧
    (∀ g : Nat → FetchOutcome, ∀ k, Event.bsAttempt k ∉ (url2md g).2) :=
  ⟨url2mdGo_exhaust fetch 30 0 (by intro j hj; simpa using h j hj),
   fun g k => url2mdGo_never_bs g 30 0 k⟩

/-- Witness for `c3_fallback_never_taken`: thirty raised request errors. -/
theorem c3_fallback_never_taken_witness :
    (url2md (fun _ => .exn)).1 = none :=
  (c3_fallback_never_taken (fun _ => .exn) (by intro j hj; simp [FetchOutcome.is200])).1

/-! ## C5 -/

theorem genGo_ok_nonempty (ai : Nat → Except String String) :
    ∀ fuel i s ts, (genGo ai fuel i).1 = .ok (s, ts) → s ≠ "" ∧ ts ≠ [] := by
  intro fuel
  induction fuel with
  | zero => intro i s ts h; exact Except.noConfusion h
  | succ m ih =>
    intro i s ts h
    simp only [genGo] at h
    cases hai : ai i with
    | error e =>
      simp only [hai] at h
      by_cases hm : m = 0
      · simp [hm] at h
      · simp only [hm, if_false] at h
        exact ih (i + 1) s ts (by simpa using h)
    | ok r =>
      simp only [hai] at h
      by_cases hp : (parseAiResult r).1 = "" ∨ (parseAiResult r).2 = []
      · simp only [if_pos hp] at h
        by_cases hm : m = 0
        · simp [hm] at h
        · simp only [hm, if_false] at h
          exact ih (i + 1) s ts (by simpa using h)
      · simp only [if_neg hp] at h
        simp only [Except.ok.injEq] at h
        push_neg at hp
        rw [h] at hp
        exact hp

theorem genGo_shift (ai : Nat → Except String String) :
    ∀ fuel i, (genGo ai fuel (i + 1)).1 = (genGo (fun j => ai (j + 1)) fuel i).1 := by
  intro fuel
  induction fuel with
  | zero => intro i; rfl
  | succ m ih =>
    intro i
    simp only [genGo]
    cases hai : ai (i + 1) with
    | error e =>
      simp only [hai]
      by_cases hm : m = 0
      · simp [hm]
      · simp only [hm, if_false]
        exact ih (i + 1)
    | ok r =>
      simp only [hai]
      by_cases hp : (parseAiResult r).1 = "" ∨ (parseAiResult r).2 = []
      · simp only [if_pos hp]
        by_cases hm : m = 0
        · simp [hm]
        · simp only [hm, if_false]
          exact ih (i + 1)
      · simp only [if_neg hp]

theorem generate_congr (cfg cfg' : Config) (ai ai' : Nat → Except String String)
    (h1 : (genGo ai cfg.openai_max_retries 0).1 = (genGo ai' cfg'.openai_max_retries 0).1)
    (h2 : cfg.skip_ai_on_error = cfg'.skip_ai_on_error)
    (h3 : cfg.default_summary = cfg'.default_summary)
    (h4 : cfg.default_tags = cfg'.default_tags) :
    (generate_summary_tags cfg ai).1 = (generate_summary_tags cfg' ai').1 := by
  simp only [generate_summary_tags]
  rw [h1, h2, h3, h4]
  cases (genGo ai' cfg'.openai_max_retries 0).1 with
  | ok v => rfl
  | error e =>
    by_cases hs : cfg'.skip_ai_on_error = true <;> simp [hs]

/-- C5, counterexample: an AI response whose tag line names no tag at all
(`标签：`) parses to the single blank tag `[""]`, which passes the format
check (the list is non-empty, so the Python `not tags` test is false): the
summarizer returns a result with no non-blank tag, without retrying.  Fed to
the note-recorder payload builder, the blank tag is filtered out and an empty
tag set reaches the stored multi-select — both halves of the claim fail. -/
theorem c5_blank_tags_cex :
    (generate_summary_tags {} (fun _ => .ok "摘要：好\n标签：")).1 =
      .ok ("好", [""]) ∧
    (buildNotionProperties
      { title := "t", original_url := some "u", snapshot_url := "s",
        summary := "好", tags := [""], created_at := 0 }).tagsMultiSelect = [] := by
  exact ⟨rfl, rfl⟩

/-- C5 (amended): with degradation enabled (the default) the summarizer
always returns a result: either the parsed summary and tag list, in which
case the summary is non-empty and the tag list is non-empty as a list (its
entries may still all be blank, as the counterexample shows), or the
configured default summary and tags.  A parse yielding an empty summary or an
empty tag list is treated as a format failure and the remaining attempts are
consulted, the first of them next. -/
theorem c5_summarizer_invariant (cfg : Config) (ai : Nat → Except String String)
    (_hmax : 1 ≤ cfg.openai_max_retries)
    (hskip : cfg.skip_ai_on_error = true) :
    (∃ s ts, (generate_summary_tags cfg ai).1 = .ok (s, ts) ∧
      ((s ≠ "" ∧ ts ≠ []) ∨ (s = cfg.default_summary ∧ ts = cfg.default_tags))) ∧
    (∀ r, ai 0 = .ok r →
      ((parseAiResult r).1 = "" ∨ (parseAiResult r).2 = []) →
      2 ≤ cfg.openai_max_retries →
      (generate_summary_tags cfg ai).1 =
        (generate_summary_tags { cfg with openai_max_retries := cfg.openai_max_retries - 1 }
          (fun j => ai (j + 1))).1) := by
  constructor
  · cases hr : (genGo ai cfg.openai_max_retries 0).1 with
    | ok v =>
      obtain ⟨hs, ht⟩ := genGo_ok_nonempty ai cfg.openai_max_retries 0 v.1 v.2 (by rw [hr])
      exact ⟨v.1, v.2, by simp [generate_summary_tags, hr], Or.inl ⟨hs, ht⟩⟩
    | error e =>
      exact ⟨cfg.default_summary, cfg.default_tags,
        by simp [generate_summary_tags, hr, hskip], Or.inr ⟨rfl, rfl⟩⟩
  · intro r hai hp h2
    obtain ⟨m, hm⟩ : ∃ m, cfg.openai_max_retries = m + 2 :=
      ⟨cfg.openai_max_retries - 2, by omega⟩
    apply generate_congr
    · have hmax' : ({ cfg with openai_max_retries := cfg.openai_max_retries - 1 } :
          Config).openai_max_retries = m + 1 := by
        simp [hm]
      rw [hmax', hm]
      have hstep : (genGo ai (m + 2) 0).1 = (genGo ai (m + 1) 1).1 := by
        simp [genGo, hai, hp]
      rw [hstep]
      exact genGo_shift ai (m + 1) 0
    · rfl
    · rfl
    · rfl

/-- Witness for `c5_summarizer_invariant`: an oracle whose first response has
a blank summary (a format failure, so the second attempt is consulted) and
whose second response parses cleanly. -/
theorem c5_summarizer_invariant_witness :
    (generate_summary_tags {}
        (fun i => if i = 0 then .ok "摘要：\n标签：a" else .ok "摘要：好\n标签：a，b")).1 =
      .ok ("好", ["a", "b"]) := by
  have h := (c5_summarizer_invariant {}
    (fun i => if i = 0 then .ok "摘要：\n标签：a" else .ok "摘要：好\n标签：a，b")
    (by decide) rfl).2 "摘要：\n标签：a" rfl (Or.inl (by rfl)) (by decide)
  rw [h]
  rfl

/-! ## C1 -/

theorem upload_all_fail (fn url : String) (create : Nat → Except String Unit)
    (poll : Nat → PollOutcome) (pollMax : Nat) (msgs : Nat → String)
    (h : ∀ i, i < 5 → create i = .error (msgs i)) :
    upload_to_github fn url create poll pollMax =
      (.error ("GitHub 上传失败: " ++ msgs 4),
       [.uploadAttempt 0, .sleep 3, .uploadAttempt 1, .sleep 6, .uploadAttempt 2,
        .sleep 12, .uploadAttempt 3, .sleep 24, .uploadAttempt 4]) := by
  have h0 := h 0 (by omega)
  have h1 := h 1 (by omega)
  have h2 := h 2 (by omega)
  have h3 := h 3 (by omega)
  have h4 := h 4 (by omega)
  simp [upload_to_github, uploadGo, h0, h1, h2, h3, h4]

/-- C1 (confirmed): when all 5 upload attempts fail — with the trace showing
the doubling 3, 6, 12, 24-second delays between them — the run ends in an
error outcome: `save_to_notion` is never called (no note-store attempt
appears in the trace), exactly one failure notification is attempted after
the attempts and before returning, and (when that notification is delivered)
the propagated error is the publish step's `RuntimeError` wrapping the last
upload error. -/
theorem c1_publish_exhaustion_aborts_pipeline (cfg : Config) (env : PEnv)
    (fileBase declaredUrl : String) (createdAt : Nat) (msgs : Nat → String)
    (h : ∀ i, i < 5 → env.create i = .error (msgs i)) :
    (∃ e, (process_file cfg env fileBase declaredUrl createdAt).1 = .error e) ∧
    (env.notify 0 = .ok () →
      (process_file cfg env fileBase declaredUrl createdAt).1 =
        .error ("GitHub 上传失败: " ++ msgs 4)) ∧
    (process_file cfg env fileBase declaredUrl createdAt).2 =
      [.uploadAttempt 0, .sleep 3, .uploadAttempt 1, .sleep 6, .uploadAttempt 2,
       .sleep 12, .uploadAttempt 3, .sleep 24, .uploadAttempt 4, .notifyAwait 0] ∧
    (∀ i, Event.notionAttempt i ∉ (process_file cfg env fileBase declaredUrl createdAt).2) := by
  have hup := upload_all_fail fileBase (githubPagesUrl cfg fileBase)
    env.create env.poll cfg.github_pages_max_retries msgs h
  have hpf : process_file cfg env fileBase declaredUrl createdAt =
      handleExcept env ("GitHub 上传失败: " ++ msgs 4)
        [.uploadAttempt 0, .sleep 3, .uploadAttempt 1, .sleep 6, .uploadAttempt 2,
         .sleep 12, .uploadAttempt 3, .sleep 24, .uploadAttempt 4] 0 := by
    simp only [process_file, hup]
  cases hn : env.notify 0 with
  | ok u =>
    refine ⟨⟨"GitHub 上传失败: " ++ msgs 4, ?_⟩, ?_, ?_, ?_⟩ <;>
      simp [hpf, handleExcept, hn]
  | error e2 =>
    refine ⟨⟨e2, ?_⟩, ?_, ?_, ?_⟩
    · simp [hpf, handleExcept, hn]
    · intro hcontra
      exact Except.noConfusion hcontra
    · simp [hpf, handleExcept, hn]
    · simp [hpf, handleExcept, hn]

/-- Witness for `c1_publish_exhaustion_aborts_pipeline`: every upload attempt
raises, the failure notification is delivered. -/
theorem c1_publish_exhaustion_aborts_pipeline_witness :
    (process_file {}
        { create := fun _ => .error "API rate limit exceeded"
          poll := fun _ => .ok200
          fetchMd := fun _ => .resp 200 ""
          ai := fun _ => .ok ""
          createPage := fun _ _ => .ok ""
          notify := fun _ => .ok () } "f.html" "" 0).1 =
      .error ("GitHub 上传失败: " ++ "API rate limit exceeded") :=
  (c1_publish_exhaustion_aborts_pipeline {}
    { create := fun _ => .error "API rate limit exceeded"
      poll := fun _ => .ok200
      fetchMd := fun _ => .resp 200 ""
      ai := fun _ => .ok ""
      createPage := fun _ _ => .ok ""
      notify := fun _ => .ok () } "f.html" "" 0
    (fun _ => "API rate limit exceeded") (fun _ _ => rfl)).2.1 rfl

/-! ## C2 -/

theorem uploadGo_first_ok (fn url : String) (create : Nat → Except String Unit)
    (poll : Nat → PollOutcome) (pollMax fuel i delay : Nat)
    (h : create i = .ok ()) :
    uploadGo fn url create poll pollMax (fuel + 1) i delay =
      (.ok (fn, url), .uploadAttempt i :: (pollDeploy poll pollMax 0).2) := by
  simp [uploadGo, h]

theorem url2mdGo_first_200 (fetch : Nat → FetchOutcome) (fuel i : Nat) (t : String)
    (h : fetch i = .resp 200 t) :
    url2mdGo fetch (fuel + 1) i = (some t, [.mdAttempt i]) := by
  simp [url2mdGo, h]

theorem notionGo_first_ok (createPage : Nat → Except String String) (fuel i : Nat)
    (u : String) (h : createPage i = .ok u) :
    notionGo createPage (fuel + 1) i = (.ok u, [.notionAttempt i]) := by
  simp [notionGo, h]

/-- C2, counterexample: a run in which publish, extraction, summarization and
note recording all succeed, but notification delivery raises "Timed out".
`process_file` does not swallow the failure: it enters its `except` block,
attempts one more (failure) notification — which raises again — and
propagates the error to the caller instead of returning the success
result. -/
theorem c2_notify_failure_propagates_cex :
    (process_file {}
        { create := fun _ => .ok ()
          poll := fun _ => .ok200
          fetchMd := fun _ => .resp 200 "Title: T\n\nB"
          ai := fun _ => .ok "摘要：S\n标签：A"
          createPage := fun _ _ => .ok "https://notion.so/p"
          notify := fun _ => .error "Timed out" } "f.html" "https://orig" 0).1 =
      .error "Timed out" ∧
    (∀ v, (process_file {}
        { create := fun _ => .ok ()
          poll := fun _ => .ok200
          fetchMd := fun _ => .resp 200 "Title: T\n\nB"
          ai := fun _ => .ok "摘要：S\n标签：A"
          createPage := fun _ _ => .ok "https://notion.so/p"
          notify := fun _ => .error "Timed out" } "f.html" "https://orig" 0).1 ≠
      .ok v) := by
  constructor
  · rfl
  · intro v hcontra
    have : (Except.error "Timed out" : Except String PipelineSuccess) = .ok v := by
      rw [← hcontra]; rfl
    exact Except.noConfusion this

/-- C2 (amended): when every step before the final notification succeeds and
the notification delivery raises, the failure is NOT swallowed: the `except`
block attempts one failure notification and `process_file` then raises — the
caller receives the notification error (or the second notification's own
error when that delivery also fails) — and the success result is not
returned. -/
theorem c2_notify_failure_propagates (cfg : Config) (env : PEnv)
    (fileBase declaredUrl : String) (createdAt : Nat)
    (md r nurl e : String)
    (hmax : 1 ≤ cfg.openai_max_retries)
    (hc : env.create 0 = .ok ())
    (hf : env.fetchMd 0 = .resp 200 md)
    (ha : env.ai 0 = .ok r)
    (hs : (parseAiResult r).1 ≠ "")
    (ht : (parseAiResult r).2 ≠ [])
    (hn : ∀ props, env.createPage props 0 = .ok nurl)
    (hnot : env.notify 0 = .error e) :
    (process_file cfg env fileBase declaredUrl createdAt).1 =
      .error (match env.notify 1 with | .ok _ => e | .error e2 => e2) ∧
    (∀ v, (process_file cfg env fileBase declaredUrl createdAt).1 ≠ .ok v) := by
  obtain ⟨m, hm⟩ : ∃ m, cfg.openai_max_retries = m + 1 :=
    ⟨cfg.openai_max_retries - 1, by omega⟩
  have hgen : (generate_summary_tags cfg env.ai).1 =
      .ok ((parseAiResult r).1, (parseAiResult r).2) := by
    have hcond : ¬((parseAiResult r).1 = "" ∨ (parseAiResult r).2 = []) := by
      push_neg; exact ⟨hs, ht⟩
    have : (genGo env.ai cfg.openai_max_retries 0).1 =
        .ok ((parseAiResult r).1, (parseAiResult r).2) := by
      rw [hm]
      simp [genGo, ha, hcond]
    simp only [generate_summary_tags]
    rw [this]
  have hres : (process_file cfg env fileBase declaredUrl createdAt).1 =
      .error (match env.notify 1 with | .ok _ => e | .error e2 => e2) := by
    obtain ⟨ges, hges⟩ : ∃ es, generate_summary_tags cfg env.ai =
        (.ok ((parseAiResult r).1, (parseAiResult r).2), es) :=
      ⟨(generate_summary_tags cfg env.ai).2, by
        rw [← hgen]⟩
    have hupl : upload_to_github fileBase (githubPagesUrl cfg fileBase) env.create
        env.poll cfg.github_pages_max_retries =
        (.ok (fileBase, githubPagesUrl cfg fileBase),
          .uploadAttempt 0 :: (pollDeploy env.poll cfg.github_pages_max_retries 0).2) :=
      uploadGo_first_ok fileBase (githubPagesUrl cfg fileBase) env.create env.poll
        cfg.github_pages_max_retries 4 0 3 hc
    have hmd : url2md env.fetchMd = (some md, [Event.mdAttempt 0]) :=
      url2mdGo_first_200 env.fetchMd 29 0 md hf
    have hsave : ∀ d, save_to_notion cfg env.createPage d =
        (.ok nurl, [Event.notionAttempt 0]) := by
      intro d
      have := notionGo_first_ok (env.createPage (buildNotionProperties d)) 2 0 nurl
        (hn (buildNotionProperties d))
      simp only [save_to_notion, this]
    simp only [process_file, hupl, hmd, hges, hsave, hnot, handleExcept]
    cases hn1 : env.notify 1 <;> simp [hn1]
  refine ⟨hres, ?_⟩
  intro v hcontra
  rw [hres] at hcontra
  exact Except.noConfusion hcontra

/-- Witness for `c2_notify_failure_propagates`: both notification deliveries
time out, so the caller sees the second delivery's error. -/
theorem c2_notify_failure_propagates_witness :
    (process_file {}
        { create := fun _ => .ok ()
          poll := fun _ => .netErr
          fetchMd := fun _ => .resp 200 "Title: T\n\nB"
          ai := fun _ => .ok "摘要：S\n标签：A"
          createPage := fun _ _ => .ok "https://notion.so/p"
          notify := fun i => if i = 0 then .error "T0" else .error "T1" }
        "f.html" "u" 0).1 =
      .error "T1" :=
  (c2_notify_failure_propagates {}
    { create := fun _ => .ok ()
      poll := fun _ => .netErr
      fetchMd := fun _ => .resp 200 "Title: T\n\nB"
      ai := fun _ => .ok "摘要：S\n标签：A"
      createPage := fun _ _ => .ok "https://notion.so/p"
      notify := fun i => if i = 0 then .error "T0" else .error "T1" } "f.html" "u" 0
    "Title: T\n\nB" "摘要：S\n标签：A" "https://notion.so/p" "T0"
    (by decide) rfl rfl rfl (by decide) (by decide) (fun _ => rfl) rfl).1

end WebClipper
